import Mathlib

/-!
# Verification of the theme-aware SVG animation layer

Shallow embedding of the client-side animation utilities of the portfolio
site (`src/components/home/SectionVisuals.tsx` and
`src/components/home/AnimatedPatterns.tsx`).  Exact rational arithmetic
(`ℚ`) models the numeric JavaScript computations; real arithmetic (`ℝ`)
with `Real.sin`/`Real.cos`/`Real.exp` models the trigonometric animation
laws.  CSS color strings are modelled as `List Char`, with the same
prefix dispatch and digit parsing the source performs.
-/

namespace SectionVisuals

/-- `getAdjustedOpacity` from `SectionVisuals.tsx` (lines 125–137): boost a
base opacity for dark themes, clamped to 1. -/
def getAdjustedOpacity (baseOpacity : ℚ) (isDark : Bool) : ℚ :=
  if !isDark then baseOpacity
  else if baseOpacity ≤ 3/10 then min 1 (baseOpacity + 4/10)
  else if baseOpacity ≤ 5/10 then min 1 (baseOpacity + 3/10)
  else min 1 (baseOpacity + 2/10)

/-- Perceptual brightness `(r*299 + g*587 + b*114) / 1000` from
`isDarkTheme` in `SectionVisuals.tsx` (line 104). -/
def brightness (r g b : ℕ) : ℚ :=
  ((r : ℚ) * 299 + (g : ℚ) * 587 + (b : ℚ) * 114) / 1000

/-- Dark-theme classification of an RGB triple: brightness strictly below
128 (`SectionVisuals.tsx` line 107). -/
def isDarkRGB (r g b : ℕ) : Bool :=
  decide (brightness r g b < 128)

/-- `yearToX` from the timeline visual (`SectionVisuals.tsx` lines
578–582): linear year-to-pixel transform. -/
def yearToX (yearDisplayStart yearWidth year : ℚ) : ℚ :=
  (year - yearDisplayStart) * yearWidth

/-- `smoothEase` from `LeadershipScalesVisual` (`SectionVisuals.tsx` lines
1494–1501): input clamped to `[0,1]`, then cubic ease-in-out. -/
def smoothEase (t : ℚ) : ℚ :=
  if max 0 (min 1 t) < 1/2 then 4 * max 0 (min 1 t) ^ 3
  else 1 - (-2 * max 0 (min 1 t) + 2) ^ 3 / 2

/-- Radii triple of one growth-circle state (`SectionVisuals.tsx` lines
1504–1509). -/
structure GrowthState where
  inner : ℚ
  middle : ℚ
  outer : ℚ
deriving DecidableEq

/-- The `states` record of `LeadershipScalesVisual`, keyed by headcount
4..7 (`SectionVisuals.tsx` lines 1504–1509); other keys do not exist. -/
def states (n : ℕ) : Option GrowthState :=
  match n with
  | 4 => some ⟨20, 40, 65⟩
  | 5 => some ⟨28, 65, 110⟩
  | 6 => some ⟨38, 95, 165⟩
  | 7 => some ⟨50, 135, 240⟩
  | _ => none

/-- Total lookup into `states`; the animation only ever holds keys 4..7,
so the fallback value is unreachable. -/
def getStateD (n : ℕ) : GrowthState :=
  (states n).getD ⟨0, 0, 0⟩

/-- One interpolated, clamped radius: `Math.max(lo, Math.min(hi, from +
(to - from) * eased))` with `lo`/`hi` the min/max of the two endpoint
radii (`SectionVisuals.tsx` lines 1544–1554). -/
def clampedLerp (a b eased : ℚ) : ℚ :=
  max (min a b) (min (max a b) (a + (b - a) * eased))

/-- The three interpolated radii of a growth-circle transition for a given
raw progress (`SectionVisuals.tsx` lines 1537–1554). -/
def interpRadii (f t : GrowthState) (progress : ℚ) : GrowthState :=
  ⟨clampedLerp f.inner t.inner (smoothEase progress),
   clampedLerp f.middle t.middle (smoothEase progress),
   clampedLerp f.outer t.outer (smoothEase progress)⟩

/-- `progress = Math.min(elapsed / stepDuration, 1)` with the 1500 ms step
duration (`SectionVisuals.tsx` lines 1530, 1537). -/
def progressOf (elapsed : ℚ) : ℚ :=
  min (elapsed / 1500) 1

/-- The number label written by `LeadershipScalesVisual` (lines
1626–1641): before 30 % progress the old number at opacity 1, from 30 %
on the new number with an eased fade starting from 0. -/
def displayedNumber (currentNumber targetNumber : ℕ) (progress : ℚ) :
    ℕ × ℚ :=
  if progress < 3/10 then (currentNumber, 1)
  else (targetNumber, smoothEase ((progress - 3/10) / (1 - 3/10)))

/-- Mutable closure state of the growth-circles animation loop
(`SectionVisuals.tsx` lines 1527–1531, 1648–1652). -/
structure GrowthAnim where
  currentNumber : ℕ
  targetNumber : ℕ
  animationStart : ℚ
deriving DecidableEq

/-- Pose written to the SVG by one growth-circles frame: the three radii,
the displayed number and its opacity. -/
structure GrowthPose where
  radii : GrowthState
  label : ℕ
  labelOpacity : ℚ
deriving DecidableEq

/-- One `animate` callback of `LeadershipScalesVisual` at wall-clock
`time` (`SectionVisuals.tsx` lines 1533–1655): returns the pose written
this frame and the updated closure state. -/
def leadershipFrame (st : GrowthAnim) (time : ℚ) : GrowthPose × GrowthAnim :=
  (⟨interpRadii (getStateD st.currentNumber) (getStateD st.targetNumber)
      (progressOf (time - st.animationStart)),
    (displayedNumber st.currentNumber st.targetNumber
      (progressOf (time - st.animationStart))).1,
    (displayedNumber st.currentNumber st.targetNumber
      (progressOf (time - st.animationStart))).2⟩,
   if 1 ≤ progressOf (time - st.animationStart) then
     ⟨st.targetNumber,
      if st.targetNumber < 7 then st.targetNumber + 1 else 4,
      time + 500⟩
   else st)

/-- Closure state at effect start: `currentNumber = 4`, `targetNumber =
5`, `animationStart = performance.now()` taken as time origin 0
(`SectionVisuals.tsx` lines 1527–1529). -/
def leadershipInit : GrowthAnim := ⟨4, 5, 0⟩

/-- Closure state after a sequence of frame callbacks at the given
wall-clock times. -/
def leadershipRun (sched : List ℚ) : GrowthAnim :=
  sched.foldl (fun st time => (leadershipFrame st time).2) leadershipInit

/-- Pose written by a frame at wall-clock `time` after the frame history
`sched`. -/
def leadershipPoseAt (sched : List ℚ) (time : ℚ) : GrowthPose :=
  (leadershipFrame (leadershipRun sched) time).1

/-- Pose written by `LeadershipScalesVisual` when the reduced-motion
preference is detected while visible (`SectionVisuals.tsx` lines
1511–1524): radii snap to `states[7]` and the label becomes 7; the label
opacity attribute is not touched. -/
def leadershipReducedMotion (prev : GrowthPose) : GrowthPose :=
  ⟨getStateD 7, 7, prev.labelOpacity⟩

end SectionVisuals

namespace SectionVisuals

/-! ## CSS color-string parsing (`getThemeColor`, `isDarkTheme`) -/

/-- Boolean prefix test on character lists, modelling
`String.prototype.startsWith`. -/
def hasPrefixC : List Char → List Char → Bool
  | [], _ => true
  | _ :: _, [] => false
  | p :: ps, c :: cs => p == c && hasPrefixC ps cs

/-- Value of one hexadecimal digit, or `none`. -/
def hexDigitVal (c : Char) : Option ℕ :=
  if 48 ≤ c.toNat ∧ c.toNat ≤ 57 then some (c.toNat - 48)
  else if 97 ≤ c.toNat ∧ c.toNat ≤ 102 then some (c.toNat - 87)
  else if 65 ≤ c.toNat ∧ c.toNat ≤ 70 then some (c.toNat - 55)
  else none

/-- JavaScript `parseInt(s, 16)` as used on two-character hex slices:
parses the leading hexadecimal digits, `none` (NaN) if there are none. -/
def parseHexPair (cs : List Char) : Option ℕ :=
  if (cs.takeWhile fun c => (hexDigitVal c).isSome) = [] then none
  else some ((cs.takeWhile fun c => (hexDigitVal c).isSome).foldl
    (fun a c => a * 16 + (hexDigitVal c).getD 0) 0)

/-- Decimal value of a digit string. -/
def digitsVal (ds : List Char) : ℕ :=
  ds.foldl (fun a c => a * 10 + (c.toNat - 48)) 0

/-- Match the regex fragment `(\d+)`: one or more leading digits, returning
their value and the rest of the input. -/
def matchNum (cs : List Char) : Option (ℕ × List Char) :=
  if (cs.takeWhile Char.isDigit) = [] then none
  else some (digitsVal (cs.takeWhile Char.isDigit), cs.dropWhile Char.isDigit)

/-- Match the regex `rgba?\((\d+),\s*(\d+),\s*(\d+)` (with `a` optional
only when `allowA` is set, mirroring the two regexes in
`SectionVisuals.tsx` lines 51 and 68/94) at the head of the input. -/
def matchTripleAt (allowA : Bool) (cs : List Char) : Option (ℕ × ℕ × ℕ) :=
  match cs with
  | 'r' :: 'g' :: 'b' :: rest =>
    match (if allowA then
             match rest with
             | 'a' :: rest2 => rest2
             | _ => rest
           else rest) with
    | '(' :: r1 =>
      match matchNum r1 with
      | some (n1, r2) =>
        match r2 with
        | ',' :: r3 =>
          match matchNum (r3.dropWhile Char.isWhitespace) with
          | some (n2, r5) =>
            match r5 with
            | ',' :: r6 =>
              match matchNum (r6.dropWhile Char.isWhitespace) with
              | some (n3, _) => some (n1, n2, n3)
              | none => none
            | _ => none
          | none => none
        | _ => none
      | _ => none
    | _ => none
  | _ => none

/-- Regex search: try `matchTripleAt` at every suffix, leftmost match
wins, as `String.prototype.match` does. -/
def searchTriple (allowA : Bool) : List Char → Option (ℕ × ℕ × ℕ)
  | [] => none
  | c :: rest =>
    match matchTripleAt allowA (c :: rest) with
    | some v => some v
    | none => searchTriple allowA rest

/-- Result of `getThemeColor`: either an `rgba(r, g, b, a)` template
string (a component is `none` when JavaScript would print `NaN`), or the
raw input returned unchanged. -/
inductive ThemeColorResult where
  | rgbaStr (r g b : Option ℕ) (a : ℚ)
  | raw (s : List Char)
deriving DecidableEq

/-- The default neutral color `rgba(31, 31, 31, opacity)`
(`SectionVisuals.tsx` lines 41 and 45). -/
def defaultThemeColor (opacity : ℚ) : ThemeColorResult :=
  .rgbaStr (some 31) (some 31) (some 31) opacity

/-- `getThemeColor` from `SectionVisuals.tsx` (lines 40–75), applied to
the already-trimmed value of the CSS custom property.  Empty value →
default neutral; `rgba(` prefix → raw value if `opacity = 1`, else
re-assembled triple when the regex matches; `#` prefix → hex slices via
`parseInt(_, 16)`; `rgb(` prefix → re-assembled triple when the regex
matches; in every remaining case the raw value is returned unchanged. -/
def getThemeColor (color : List Char) (opacity : ℚ) : ThemeColorResult :=
  if color = [] then defaultThemeColor opacity
  else
    match (if hasPrefixC ("rgba(".toList) color then
             if opacity = 1 then some (ThemeColorResult.raw color)
             else
               match searchTriple true color with
               | some (r, g, b) =>
                 some (.rgbaStr (some r) (some g) (some b) opacity)
               | none => none
           else none) with
    | some res => res
    | none =>
      if hasPrefixC ['#'] color then
        .rgbaStr (parseHexPair ((color.drop 1).take 2))
          (parseHexPair (((color.drop 1).drop 2).take 2))
          (parseHexPair (((color.drop 1).drop 4).take 2)) opacity
      else
        match (if hasPrefixC ("rgb(".toList) color then searchTriple false color
               else none) with
        | some (r, g, b) => .rgbaStr (some r) (some g) (some b) opacity
        | none => .raw color

/-- `isDarkTheme` from `SectionVisuals.tsx` (lines 78–108), applied to the
trimmed `--theme-bg` value: empty → light; `#` prefix → hex slices (a
NaN component makes the brightness comparison false); `rgb` prefix →
regex triple, with `r = g = b = 0` kept when the regex fails; otherwise
`r = g = b = 0`. -/
def isDarkTheme (bg : List Char) : Bool :=
  if bg = [] then false
  else
    match (if hasPrefixC ['#'] bg then
             (parseHexPair ((bg.drop 1).take 2),
              parseHexPair (((bg.drop 1).drop 2).take 2),
              parseHexPair (((bg.drop 1).drop 4).take 2))
           else if hasPrefixC ("rgb".toList) bg then
             match searchTriple false bg with
             | some (r, g, b) => (some r, some g, some b)
             | none => (some 0, some 0, some 0)
           else (some 0, some 0, some 0)) with
    | (some r, some g, some b) => isDarkRGB r g b
    | _ => false

end SectionVisuals

namespace SectionVisuals

/-! ## Real-valued animation laws (cradle, discovery dot) -/

/-- JavaScript `x % c` for nonnegative `x` and positive `c`, as used for
`(now - start) % cycleDuration`. -/
noncomputable def jsMod (x c : ℝ) : ℝ := x - c * ⌊x / c⌋

/-- `maxAngle = 30 * Math.PI / 180` (`SectionVisuals.tsx` line 1914). -/
noncomputable def maxAngle : ℝ := 30 * Real.pi / 180

/-- Collision nudge magnitude of the center balls: smooth ease of the
window-relative time, scaled by 0.02 (`SectionVisuals.tsx` lines
1944–1947). -/
noncomputable def collisionIntensity (collisionT : ℝ) : ℝ :=
  (1/2 - 1/2 * Real.cos (collisionT * Real.pi)) * (2/100)

/-- The four cradle ball angles as a function of normalized cycle time
`t ∈ [0,1)` (`SectionVisuals.tsx` lines 1927–1973). -/
noncomputable def cradleAngles (t : ℝ) : ℝ × ℝ × ℝ × ℝ :=
  if t < 1/2 then
    if 48/100 ≤ t ∧ t ≤ 52/100 then
      (-maxAngle * Real.sin (t * 2 * Real.pi),
       collisionIntensity ((t - 48/100) / (4/100)),
       collisionIntensity ((t - 48/100) / (4/100)), 0)
    else
      (-maxAngle * Real.sin (t * 2 * Real.pi), 0, 0, 0)
  else
    if 98/100 ≤ t then
      (0, -collisionIntensity ((t - 98/100) / (4/100)),
       -collisionIntensity ((t - 98/100) / (4/100)),
       maxAngle * Real.sin ((t - 1/2) * 2 * Real.pi))
    else if t ≤ 2/100 then
      (0, -collisionIntensity ((t + 2/100) / (4/100)),
       -collisionIntensity ((t + 2/100) / (4/100)),
       maxAngle * Real.sin ((t - 1/2) * 2 * Real.pi))
    else
      (0, 0, 0, maxAngle * Real.sin ((t - 1/2) * 2 * Real.pi))

/-- Cradle angles as a function of raw elapsed milliseconds: the loop
computes `t = ((now - start) % 2000) / 2000` (`SectionVisuals.tsx` lines
1915, 1929–1930). -/
noncomputable def cradleAnglesRaw (elapsedRaw : ℝ) : ℝ × ℝ × ℝ × ℝ :=
  cradleAngles (jsMod elapsedRaw 2000 / 2000)

/-- Pose `(dotX, dotY, radius)` of the discovery-cycle dot of
`HowIWorkVisual` as a function of elapsed time within one cycle
(`SectionVisuals.tsx` lines 1244–1344).  Constants: center (200,150),
circle radius 80, dot radius 6 → 19.2, phase durations
5000/600/200/300/1000 ms. -/
noncomputable def dotPose (elapsed : ℝ) : ℝ × ℝ × ℝ :=
  if elapsed < 5000 then
    (200, 150 - 80,
     6 + (24 * (8/10) - 6) * (1/2 - 1/2 * Real.cos (elapsed / 5000 * Real.pi)))
  else if elapsed < 5000 + 600 then
    (200 + 80 * Real.cos (-(Real.pi / 2) +
       (if (elapsed - 5000) / 600 < 1/2 then 2 * ((elapsed - 5000) / 600) ^ 2
        else 1 - (-2 * ((elapsed - 5000) / 600) + 2) ^ 3 / 2) * 2 * Real.pi),
     150 + 80 * Real.sin (-(Real.pi / 2) +
       (if (elapsed - 5000) / 600 < 1/2 then 2 * ((elapsed - 5000) / 600) ^ 2
        else 1 - (-2 * ((elapsed - 5000) / 600) + 2) ^ 3 / 2) * 2 * Real.pi),
     24 * (8/10))
  else if elapsed < 5000 + 600 + 200 then
    (200 + Real.sin ((elapsed - 5000 - 600) / 200 * Real.pi * (5/2)) *
       Real.exp (-((elapsed - 5000 - 600) / 200) * 3) * 3,
     150 - 80, 24 * (8/10))
  else if elapsed < 5000 + 600 + 200 + 300 then
    (200, 150 - 80,
     24 * (8/10) - (24 * (8/10) - 6) *
       (1/2 - 1/2 * Real.cos ((elapsed - 5000 - 600 - 200) / 300 * Real.pi)))
  else
    (200, 150 - 80, 6)

/-- Discovery-dot pose as a function of raw elapsed milliseconds: the
loop computes `elapsed = (now - start) % totalCycle` with `totalCycle =
5000 + 600 + 200 + 300 + 1000 = 7100` (`SectionVisuals.tsx` lines
1250–1260). -/
noncomputable def dotPoseRaw (elapsedRaw : ℝ) : ℝ × ℝ × ℝ :=
  dotPose (jsMod elapsedRaw 7100)

/-- Effect of reduced motion on the cradle (`SectionVisuals.tsx` lines
1899–1903): the animation frame is cancelled and nothing is written, so
whatever angles were last rendered persist. -/
def cradleReducedMotion (prev : ℝ × ℝ × ℝ × ℝ) : ℝ × ℝ × ℝ × ℝ := prev

/-- Effect of reduced motion on the discovery dot (`SectionVisuals.tsx`
lines 1238–1242): the animation frame is cancelled and nothing is
written, so the last rendered pose persists. -/
def dotReducedMotion (prev : ℝ × ℝ × ℝ) : ℝ × ℝ × ℝ := prev

end SectionVisuals

namespace AnimatedPatterns

/-- The six hard-coded permutations of `[0, 1, 2]` from `shuffleShapes`
(`AnimatedPatterns.tsx` lines 65–69). -/
def allPerms : List (List ℕ) :=
  [[0, 1, 2], [0, 2, 1], [1, 0, 2], [1, 2, 0], [2, 0, 1], [2, 1, 0]]

/-- The candidate filter of `shuffleShapes` (`AnimatedPatterns.tsx` lines
72–76): permutations differing from the current order at every slot. -/
def shuffleCandidates (currentOrder : List ℕ) : List (List ℕ) :=
  allPerms.filter fun perm =>
    perm.getD 0 0 != currentOrder.getD 0 0 &&
    perm.getD 1 0 != currentOrder.getD 1 0 &&
    perm.getD 2 0 != currentOrder.getD 2 0

end AnimatedPatterns

section Theorems

open SectionVisuals

/-- C1: for every base opacity `o ∈ [0,1]`, on a dark theme
`getAdjustedOpacity` returns `min 1 (o+0.4)` when `o ≤ 0.3`,
`min 1 (o+0.3)` when `0.3 < o ≤ 0.5`, and `min 1 (o+0.2)` when
`o > 0.5`; on a non-dark theme it returns `o` unchanged; in particular
base opacity `0.3` on a dark theme resolves to exactly `0.7`. -/
theorem getAdjustedOpacity_spec (o : ℚ) (h0 : 0 ≤ o) (h1 : o ≤ 1) :
    ((o ≤ 3/10 → getAdjustedOpacity o true = min 1 (o + 4/10)) ∧
     (3/10 < o → o ≤ 5/10 → getAdjustedOpacity o true = min 1 (o + 3/10)) ∧
     (5/10 < o → getAdjustedOpacity o true = min 1 (o + 2/10)) ∧
     getAdjustedOpacity o false = o) ∧
    getAdjustedOpacity (3/10) true = 7/10 := by
  refine ⟨⟨?_, ?_, ?_, ?_⟩, by norm_num [getAdjustedOpacity, min_def]⟩
  · intro h
    simp [getAdjustedOpacity, h]
  · intro h h'
    simp [getAdjustedOpacity, not_le.mpr h, h']
  · intro h
    simp [getAdjustedOpacity, not_le.mpr h,
      not_le.mpr (lt_trans (by norm_num : (3:ℚ)/10 < 5/10) h)]
  · simp [getAdjustedOpacity]

/-- Witness for C1 at the concrete base opacity 0.3. -/
theorem getAdjustedOpacity_spec_witness :
    (0 ≤ (3/10 : ℚ) ∧ (3/10 : ℚ) ≤ 1) ∧
    getAdjustedOpacity (3/10) true = 7/10 :=
  ⟨⟨by norm_num, by norm_num⟩,
   (getAdjustedOpacity_spec (3/10) (by norm_num) (by norm_num)).2⟩

/-- Rewriting the rational brightness threshold as a natural-number
comparison, for concrete evaluation. -/
theorem isDarkRGB_natlt (r g b : ℕ) :
    isDarkRGB r g b = decide (r * 299 + g * 587 + b * 114 < 128000) := by
  unfold isDarkRGB brightness
  rw [decide_eq_decide, div_lt_iff (by norm_num)]
  constructor
  · intro h
    have h2 : ((r * 299 + g * 587 + b * 114 : ℕ) : ℚ) < ((128000 : ℕ) : ℚ) := by
      push_cast
      linarith
    exact_mod_cast h2
  · intro h
    have h2 : ((r * 299 + g * 587 + b * 114 : ℕ) : ℚ) < ((128000 : ℕ) : ℚ) := by
      exact_mod_cast h
    push_cast at h2
    linarith

/-- C8: `isDarkTheme` classifies as dark exactly when the brightness
`0.299·R + 0.587·G + 0.114·B` is strictly below 128; black `#000000` is
dark, white `#ffffff` is light, and the boundary gray `#808080` (each
channel 128, brightness exactly 128) is light. -/
theorem isDarkTheme_threshold_spec :
    (∀ r g b : ℕ, isDarkRGB r g b = true ↔ brightness r g b < 128) ∧
    brightness 128 128 128 = 128 ∧
    isDarkTheme ("#000000".toList) = true ∧
    isDarkTheme ("#ffffff".toList) = false ∧
    isDarkTheme ("#808080".toList) = false := by
  refine ⟨fun r g b => by simp [isDarkRGB], by norm_num [brightness], ?_, ?_, ?_⟩
  · have h : isDarkTheme ("#000000".toList) = isDarkRGB 0 0 0 := rfl
    rw [h, isDarkRGB_natlt]
    decide
  · have h : isDarkTheme ("#ffffff".toList) = isDarkRGB 255 255 255 := rfl
    rw [h, isDarkRGB_natlt]
    decide
  · have h : isDarkTheme ("#808080".toList) = isDarkRGB 128 128 128 := rfl
    rw [h, isDarkRGB_natlt]
    decide

/-- C9: the timeline year-to-pixel mapping is the linear transform
`x = (year − displayStartYear) · yearWidth`: the display start year maps
to 0, and consecutive years are exactly `yearWidth` pixels apart. -/
theorem yearToX_linear (yearDisplayStart yearWidth year : ℚ) :
    yearToX yearDisplayStart yearWidth yearDisplayStart = 0 ∧
    yearToX yearDisplayStart yearWidth (year + 1) -
      yearToX yearDisplayStart yearWidth year = yearWidth := by
  unfold yearToX
  constructor <;> ring

/-- C10: for every current slot assignment of the three shapes (any of
the six permutations of `[0,1,2]`), the candidate list of
`shuffleShapes` is non-empty, and every candidate (hence the randomly
chosen one at any valid index) differs from the current order at every
slot — a derangement. -/
theorem shuffleShapes_derangement (cur : List ℕ)
    (h : cur ∈ AnimatedPatterns.allPerms) :
    AnimatedPatterns.shuffleCandidates cur ≠ [] ∧
    ∀ k, k < (AnimatedPatterns.shuffleCandidates cur).length →
      ∀ i, i < 3 →
        ((AnimatedPatterns.shuffleCandidates cur).getD k []).getD i 0 ≠
          cur.getD i 0 := by
  fin_cases h <;> exact ⟨by decide, by decide⟩

/-- Witness for C10 at the identity assignment `[0, 1, 2]`. -/
theorem shuffleShapes_derangement_witness :
    [0, 1, 2] ∈ AnimatedPatterns.allPerms ∧
    (AnimatedPatterns.shuffleCandidates [0, 1, 2] ≠ [] ∧
     ∀ k, k < (AnimatedPatterns.shuffleCandidates [0, 1, 2]).length →
       ∀ i, i < 3 →
         ((AnimatedPatterns.shuffleCandidates [0, 1, 2]).getD k []).getD i 0 ≠
           ([0, 1, 2] : List ℕ).getD i 0) :=
  ⟨by decide, shuffleShapes_derangement [0, 1, 2] (by decide)⟩

/-- The clamp at the head of `smoothEase` is the identity on `[0,1]`. -/
theorem smoothEase_clamp_id {t : ℚ} (h0 : 0 ≤ t) (h1 : t ≤ 1) :
    max 0 (min 1 t) = t := by
  rw [min_eq_right h1, max_eq_right h0]

/-- The eased value always lies in `[0,1]`, for every raw input. -/
theorem smoothEase_bounds (t : ℚ) : 0 ≤ smoothEase t ∧ smoothEase t ≤ 1 := by
  unfold smoothEase
  have h0 : (0:ℚ) ≤ max 0 (min 1 t) := le_max_left 0 _
  have h1 : max 0 (min 1 t) ≤ 1 := max_le (by norm_num) (min_le_left 1 t)
  set c := max 0 (min 1 t) with hc
  split
  · rename_i h
    constructor
    · positivity
    · have h3 : c ^ 3 < (1/2 : ℚ) ^ 3 := pow_lt_pow_left₀ h h0 (by norm_num)
      norm_num at h3
      linarith
  · rename_i h
    push_neg at h
    have ha : (0:ℚ) ≤ -2 * c + 2 := by linarith
    have hb : (-2 * c + 2 : ℚ) ≤ 1 := by linarith
    have hcube1 : (-2 * c + 2 : ℚ) ^ 3 ≤ 1 := pow_le_one₀ ha hb
    have hcube0 : (0:ℚ) ≤ (-2 * c + 2) ^ 3 := pow_nonneg ha 3
    constructor
    · linarith
    · linarith

/-- `smoothEase` is strictly increasing on `[0,1]`. -/
theorem smoothEase_strict_mono {x y : ℚ} (hx : 0 ≤ x) (hxy : x < y)
    (hy : y ≤ 1) : smoothEase x < smoothEase y := by
  unfold smoothEase
  rw [smoothEase_clamp_id hx (le_trans hxy.le hy),
    smoothEase_clamp_id (le_trans hx hxy.le) hy]
  rcases lt_or_le x (1/2) with h1 | h1
  · rcases lt_or_le y (1/2) with h2 | h2
    · rw [if_pos h1, if_pos h2]
      have h3 : x ^ 3 < y ^ 3 := pow_lt_pow_left₀ hxy hx (by norm_num)
      linarith
    · rw [if_pos h1, if_neg (not_lt.mpr h2)]
      have hx3 : x ^ 3 < (1/2 : ℚ) ^ 3 := pow_lt_pow_left₀ h1 hx (by norm_num)
      have hy0 : (0:ℚ) ≤ -2 * y + 2 := by linarith
      have hy1 : (-2 * y + 2 : ℚ) ≤ 1 := by linarith
      have hcube : (-2 * y + 2 : ℚ) ^ 3 ≤ 1 := pow_le_one₀ hy0 hy1
      norm_num at hx3
      linarith
  · have h2 : (1/2 : ℚ) ≤ y := le_trans h1 hxy.le
    rw [if_neg (not_lt.mpr h1), if_neg (not_lt.mpr h2)]
    have hlt : (-2 * y + 2 : ℚ) < -2 * x + 2 := by linarith
    have h0y : (0:ℚ) ≤ -2 * y + 2 := by linarith
    have h3 : (-2 * y + 2 : ℚ) ^ 3 < (-2 * x + 2) ^ 3 :=
      pow_lt_pow_left₀ hlt h0y (by norm_num)
    linarith

/-- Each clamped interpolation lands between the two endpoints. -/
theorem clampedLerp_mem (a b e : ℚ) :
    min a b ≤ clampedLerp a b e ∧ clampedLerp a b e ≤ max a b := by
  unfold clampedLerp
  exact ⟨le_max_left _ _, max_le min_le_max (min_le_left _ _)⟩

/-- C6: for every growth-circle transition between two of the states
4..7 and every raw progress value (including values below 0 and above
1), each interpolated radius lies within the closed interval spanned by
its two endpoint radii, and the eased progress itself is clamped into
`[0,1]`. -/
theorem growth_interp_bounded (m n : ℕ) (fs ts : GrowthState)
    (hf : states m = some fs) (ht : states n = some ts) (p : ℚ) :
    (min fs.inner ts.inner ≤ (interpRadii fs ts p).inner ∧
      (interpRadii fs ts p).inner ≤ max fs.inner ts.inner) ∧
    (min fs.middle ts.middle ≤ (interpRadii fs ts p).middle ∧
      (interpRadii fs ts p).middle ≤ max fs.middle ts.middle) ∧
    (min fs.outer ts.outer ≤ (interpRadii fs ts p).outer ∧
      (interpRadii fs ts p).outer ≤ max fs.outer ts.outer) ∧
    (0 ≤ smoothEase p ∧ smoothEase p ≤ 1) :=
  ⟨clampedLerp_mem _ _ _, clampedLerp_mem _ _ _, clampedLerp_mem _ _ _,
   smoothEase_bounds p⟩

/-- Witness for C6: transition from state 4 to state 5 at the
out-of-range progress 2. -/
theorem growth_interp_bounded_witness :
    (states 4 = some ⟨20, 40, 65⟩ ∧ states 5 = some ⟨28, 65, 110⟩) ∧
    min (20:ℚ) 28 ≤ (interpRadii ⟨20, 40, 65⟩ ⟨28, 65, 110⟩ 2).inner ∧
    (interpRadii ⟨20, 40, 65⟩ ⟨28, 65, 110⟩ 2).inner ≤ max (20:ℚ) 28 :=
  ⟨⟨rfl, rfl⟩, (growth_interp_bounded 4 5 _ _ rfl rfl 2).1⟩

/-- C7: during a 1500 ms growth-circle transition from state 4 to state
5, progress is below 30 % exactly before 450 ms; before 450 ms the label
shows the old value 4 at opacity 1; from 450 ms on it shows the new
value 5, with fade opacity exactly 0 at 450 ms and strictly rising
until the transition completes at 1500 ms. -/
theorem number_switch_at_30_percent (e : ℚ) (he : 0 ≤ e) :
    (progressOf e < 3/10 ↔ e < 450) ∧
    (e < 450 → displayedNumber 4 5 (progressOf e) = (4, 1)) ∧
    (450 ≤ e → (displayedNumber 4 5 (progressOf e)).1 = 5) ∧
    displayedNumber 4 5 (progressOf 450) = (5, 0) ∧
    (∀ f, 450 ≤ e → e < f → f ≤ 1500 →
      (displayedNumber 4 5 (progressOf e)).2 <
        (displayedNumber 4 5 (progressOf f)).2) := by
  have hiff : progressOf e < 3/10 ↔ e < 450 := by
    unfold progressOf
    rw [min_lt_iff]
    constructor
    · rintro (h | h)
      · rw [div_lt_iff (by norm_num)] at h
        linarith
      · norm_num at h
    · intro h
      left
      rw [div_lt_iff (by norm_num)]
      linarith
  refine ⟨hiff, ?_, ?_, ?_, ?_⟩
  · intro h
    unfold displayedNumber
    rw [if_pos (hiff.mpr h)]
  · intro h
    unfold displayedNumber
    rw [if_neg (by rw [hiff]; exact not_lt.mpr h)]
  · have h450 : progressOf 450 = 3/10 := by
      unfold progressOf
      rw [min_eq_left (by norm_num)]
      norm_num
    rw [h450]
    unfold displayedNumber
    rw [if_neg (by norm_num)]
    norm_num [smoothEase]
  · intro f h1 h2 h3
    have hef : e ≤ 1500 := le_trans h2.le h3
    have hpe : progressOf e = e / 1500 := by
      unfold progressOf
      exact min_eq_left (by rw [div_le_one (by norm_num)]; exact hef)
    have hpf : progressOf f = f / 1500 := by
      unfold progressOf
      exact min_eq_left (by rw [div_le_one (by norm_num)]; exact h3)
    have hdiv : e / 1500 < f / 1500 := by
      rw [div_lt_div_iff (by norm_num : (0:ℚ) < 1500)
        (by norm_num : (0:ℚ) < 1500)]
      nlinarith
    have h30 : (3:ℚ)/10 ≤ e / 1500 := by
      rw [le_div_iff (by norm_num)]
      linarith
    have hf1 : f / 1500 ≤ 1 := by
      rw [div_le_one (by norm_num)]
      exact h3
    have hne : ¬ progressOf e < 3/10 := by
      rw [hiff]
      exact not_lt.mpr h1
    have hnf : ¬ progressOf f < 3/10 := by
      rw [hpf]
      intro hcon
      rw [div_lt_iff (by norm_num)] at hcon
      linarith
    unfold displayedNumber
    rw [if_neg hne, if_neg hnf]
    simp only
    rw [hpe, hpf]
    have h710 : (0:ℚ) < 1 - 3/10 := by norm_num
    apply smoothEase_strict_mono
    · exact div_nonneg (by linarith) h710.le
    · rw [div_lt_div_iff h710 h710]
      nlinarith
    · rw [div_le_one h710]
      linarith

/-- Witness for C7 at the switch instant 450 ms. -/
theorem number_switch_at_30_percent_witness :
    (0:ℚ) ≤ 450 ∧ displayedNumber 4 5 (progressOf 450) = (5, 0) :=
  ⟨by norm_num, (number_switch_at_30_percent 450 (by norm_num)).2.2.2.1⟩

/-- C4 counterexample: the unset (empty) value does fall back to the
default, but an unparseable non-empty value such as `blue` is returned
unchanged — not replaced by the default neutral color carrying the
requested opacity, contrary to the claim. -/
theorem getThemeColor_unparseable_counterexample :
    getThemeColor ("blue".toList) 1 = ThemeColorResult.raw ("blue".toList) ∧
    ThemeColorResult.raw ("blue".toList) ≠ defaultThemeColor 1 := by
  constructor
  · decide
  · decide

/-- A prefix test succeeds exactly when the string is that prefix
followed by some tail. -/
theorem hasPrefixC_iff_append (p s : List Char) :
    hasPrefixC p s = true ↔ ∃ t, s = p ++ t := by
  induction p generalizing s with
  | nil => simp [hasPrefixC]
  | cons c p ih =>
    cases s with
    | nil => simp [hasPrefixC]
    | cons d s2 =>
      simp only [hasPrefixC, Bool.and_eq_true, beq_iff_eq, ih,
        List.cons_append, List.cons.injEq]
      constructor
      · rintro ⟨rfl, t, rfl⟩
        exact ⟨t, rfl, rfl⟩
      · rintro ⟨t, rfl, rfl⟩
        exact ⟨rfl, t, rfl⟩

/-- C4 amended: `getThemeColor` never throws; an unset (empty) value
yields the default neutral color with the requested opacity; every
unparseable non-empty value degrades silently but not to the default:
a value matching none of the three handled prefixes is returned
unchanged, an `rgba(`-prefixed value is returned unchanged when the
requested opacity is 1 or when its digit-triple regex fails, an
`rgb(`-prefixed value whose regex fails is returned unchanged, and a
`#`-prefixed value always yields the `rgba(...)` template built from
its three hex slices — with NaN components when a slice fails to
parse — never the raw input and never the default. -/
theorem getThemeColor_fallback_spec (opacity : ℚ) (s : List Char) :
    getThemeColor [] opacity = defaultThemeColor opacity ∧
    (s ≠ [] → hasPrefixC ("rgba(".toList) s = false →
      hasPrefixC ['#'] s = false → hasPrefixC ("rgb(".toList) s = false →
      getThemeColor s opacity = ThemeColorResult.raw s) ∧
    (hasPrefixC ("rgba(".toList) s = true → opacity = 1 →
      getThemeColor s opacity = ThemeColorResult.raw s) ∧
    (hasPrefixC ("rgba(".toList) s = true → opacity ≠ 1 →
      searchTriple true s = none →
      getThemeColor s opacity = ThemeColorResult.raw s) ∧
    (hasPrefixC ("rgb(".toList) s = true →
      hasPrefixC ("rgba(".toList) s = false → searchTriple false s = none →
      getThemeColor s opacity = ThemeColorResult.raw s) ∧
    (hasPrefixC ['#'] s = true →
      getThemeColor s opacity =
        ThemeColorResult.rgbaStr (parseHexPair ((s.drop 1).take 2))
          (parseHexPair (((s.drop 1).drop 2).take 2))
          (parseHexPair (((s.drop 1).drop 4).take 2)) opacity) ∧
    getThemeColor ("#zzzzzz".toList) 1 =
      ThemeColorResult.rgbaStr none none none 1 := by
  refine ⟨by simp [getThemeColor], ?_, ?_, ?_, ?_, ?_, by decide⟩
  · intro hne h1 h2 h3
    have h1a : hasPrefixC ['r', 'g', 'b', 'a', '('] s = false := h1
    have h2a : hasPrefixC ['#'] s = false := h2
    have h3a : hasPrefixC ['r', 'g', 'b', '('] s = false := h3
    simp [getThemeColor, hne, h1a, h2a, h3a]
  · intro h1 hop
    have h1a : hasPrefixC ['r', 'g', 'b', 'a', '('] s = true := h1
    obtain ⟨t, rfl⟩ := (hasPrefixC_iff_append ['r', 'g', 'b', 'a', '('] _).mp h1a
    simp [getThemeColor, hasPrefixC, hop]
  · intro h1 hop hsearch
    have h1a : hasPrefixC ['r', 'g', 'b', 'a', '('] s = true := h1
    obtain ⟨t, rfl⟩ := (hasPrefixC_iff_append ['r', 'g', 'b', 'a', '('] _).mp h1a
    simp only [List.cons_append, List.nil_append] at hsearch
    simp [getThemeColor, hasPrefixC, hop, hsearch]
  · intro h3 h1 hsearch
    have h3a : hasPrefixC ['r', 'g', 'b', '('] s = true := h3
    obtain ⟨t, rfl⟩ := (hasPrefixC_iff_append ['r', 'g', 'b', '('] _).mp h3a
    have h1a : hasPrefixC ['r', 'g', 'b', 'a', '(']
        ('r' :: 'g' :: 'b' :: '(' :: t) = false := h1
    simp only [List.cons_append, List.nil_append] at hsearch
    simp [getThemeColor, hasPrefixC, hsearch]
  · intro h2
    have h2a : hasPrefixC ['#'] s = true := h2
    obtain ⟨t, rfl⟩ := (hasPrefixC_iff_append ['#'] _).mp h2a
    simp [getThemeColor, hasPrefixC]

/-- Witness for C4 amended: the no-prefix conjunct at the unparseable
value `blue`, and the hex conjunct at the bad hex value `#zzzzzz`. -/
theorem getThemeColor_fallback_spec_witness :
    (("blue".toList ≠ ([] : List Char)) ∧
      hasPrefixC ("rgba(".toList) ("blue".toList) = false ∧
      hasPrefixC ['#'] ("blue".toList) = false ∧
      hasPrefixC ("rgb(".toList) ("blue".toList) = false ∧
      hasPrefixC ['#'] ("#zzzzzz".toList) = true) ∧
    getThemeColor ("blue".toList) 1 = ThemeColorResult.raw ("blue".toList) ∧
    getThemeColor ("#zzzzzz".toList) 1 =
      ThemeColorResult.rgbaStr (parseHexPair (("#zzzzzz".toList.drop 1).take 2))
        (parseHexPair ((("#zzzzzz".toList.drop 1).drop 2).take 2))
        (parseHexPair ((("#zzzzzz".toList.drop 1).drop 4).take 2)) 1 :=
  ⟨⟨by decide, by decide, by decide, by decide, by decide⟩,
   (getThemeColor_fallback_spec 1 ("blue".toList)).2.1 (by decide) (by decide)
     (by decide) (by decide),
   (getThemeColor_fallback_spec 1 ("#zzzzzz".toList)).2.2.2.2.2.1 (by decide)⟩

/-- Adding one full cycle to the elapsed time does not change the value
of `(now - start) % cycleDuration`. -/
theorem jsMod_add_cycle (x c : ℝ) (hc : c ≠ 0) :
    jsMod (x + c) c = jsMod x c := by
  unfold jsMod
  have h : (x + c) / c = x / c + 1 := by field_simp
  rw [h]
  have h2 : ⌊x / c + 1⌋ = ⌊x / c⌋ + 1 := Int.floor_add_one (x / c)
  rw [h2]
  push_cast
  ring

/-- C3 counterexample: the growth-circles controller is not a pure
function of `now − start`.  With the same start (0) and the same current
time (3000 ms), a frame history that ran a callback at 1499 ms yields a
different pose than one that ran it at 1500 ms, because the closure
mutates `currentNumber`/`targetNumber`/`animationStart` across frames. -/
theorem leadership_pose_history_dependent :
    leadershipPoseAt [1499] 3000 ≠ leadershipPoseAt [1500] 3000 := by
  have hA : (leadershipPoseAt [1499] 3000).label = 5 := by
    norm_num [leadershipPoseAt, leadershipRun, leadershipFrame,
      leadershipInit, displayedNumber, progressOf, min_def]
  have hB : (leadershipPoseAt [1500] 3000).label = 6 := by
    norm_num [leadershipPoseAt, leadershipRun, leadershipFrame,
      leadershipInit, displayedNumber, progressOf, min_def]
  intro h
  rw [h, hB] at hA
  exact absurd hA (by norm_num)

/-- C3 amended: the controllers that use the modulo pattern — the
discovery-cycle dot (cycle 7100 ms) and the Newton's cradle (cycle
2000 ms) — compute their pose as a pure function of
`(now − start) mod cycleDuration`, so for every elapsed time the pose
one cycle later is identical (drift-free looping, restartable by
resetting the start timestamp); the growth-circles controller instead
carries its phase in mutable closure state across frames. -/
theorem modular_clock_periodic (e : ℝ) (he : 0 ≤ e) :
    dotPoseRaw (e + 7100) = dotPoseRaw e ∧
    cradleAnglesRaw (e + 2000) = cradleAnglesRaw e := by
  constructor
  · unfold dotPoseRaw
    rw [jsMod_add_cycle e 7100 (by norm_num)]
  · unfold cradleAnglesRaw
    rw [jsMod_add_cycle e 2000 (by norm_num)]

/-- Witness for C3 amended at elapsed time 0. -/
theorem modular_clock_periodic_witness :
    (0:ℝ) ≤ 0 ∧ dotPoseRaw (0 + 7100) = dotPoseRaw 0 :=
  ⟨le_refl 0, (modular_clock_periodic 0 (le_refl 0)).1⟩

/-- The maximum swing angle `30°` is positive. -/
theorem maxAngle_pos : 0 < maxAngle := by
  unfold maxAngle
  positivity

/-- The collision nudge vanishes at the start of its window. -/
theorem collisionIntensity_zero : collisionIntensity 0 = 0 := by
  unfold collisionIntensity
  simp

/-- The collision nudge is strictly positive strictly inside its
window. -/
theorem collisionIntensity_pos {x : ℝ} (hx0 : 0 < x) (hx1 : x ≤ 1) :
    0 < collisionIntensity x := by
  unfold collisionIntensity
  have harg0 : 0 < x * Real.pi := mul_pos hx0 Real.pi_pos
  have harg1 : x * Real.pi ≤ Real.pi := by
    nlinarith [Real.pi_pos]
  have hcos : Real.cos (x * Real.pi) < 1 := by
    have h := Real.cos_lt_cos_of_nonneg_of_le_pi (le_refl 0) harg1 harg0
    rwa [Real.cos_zero] at h
  nlinarith

/-- C2 counterexample: the claimed `±2 %` collision windows are only
half-implemented.  At `t = 0.51` — inside the `±2 %` window around the
collision instant `t = 0.5` — the center balls receive no nudge, and at
`t = 0.01` — inside the wrap-around part of the window around `t = 1` —
they receive no nudge either (that branch of the code is unreachable). -/
theorem cradle_window_nudge_counterexample :
    (51:ℝ)/100 - 1/2 ≤ 2/100 ∧
    (cradleAngles ((51:ℝ)/100)).2.1 = 0 ∧
    (cradleAngles ((1:ℝ)/100)).2.1 = 0 := by
  refine ⟨by norm_num, ?_, ?_⟩
  · unfold cradleAngles
    rw [if_neg (by norm_num), if_neg (by norm_num), if_neg (by norm_num)]
  · unfold cradleAngles
    rw [if_pos (by norm_num), if_neg (by norm_num)]

/-- C2 amended: with `t` the normalized cycle time in `[0,1)`: at
`t = 0` all four angles are exactly 0; on the first half only ball 0
swings (strictly negative angle for `0 < t < 1/2`, ball 3 at 0), on the
second half only ball 3 swings (strictly positive for `1/2 < t`, ball 0
at 0); the center balls 1 and 2 are equal and nudged only inside the
one-sided windows `(0.48, 0.5)` (positive) and `(0.98, 1)` (negative),
are exactly 0 at the window-opening instants `t = 0.48` and `t = 0.98`,
and receive no nudge anywhere else — in particular not on `[0.5, 0.52]`
and not on `[0, 0.02]`. -/
theorem cradleAngles_phase_spec (t : ℝ) (h0 : 0 ≤ t) (h1 : t < 1) :
    (t = 0 → cradleAngles t = (0, 0, 0, 0)) ∧
    (0 < t → t < 1/2 → (cradleAngles t).1 < 0) ∧
    (t < 1/2 → (cradleAngles t).2.2.2 = 0) ∧
    (1/2 ≤ t → (cradleAngles t).1 = 0) ∧
    (1/2 < t → 0 < (cradleAngles t).2.2.2) ∧
    (t < 48/100 → (cradleAngles t).2.1 = 0 ∧ (cradleAngles t).2.2.1 = 0) ∧
    (48/100 < t → t < 1/2 →
      0 < (cradleAngles t).2.1 ∧
        (cradleAngles t).2.1 = (cradleAngles t).2.2.1) ∧
    (1/2 ≤ t → t < 98/100 →
      (cradleAngles t).2.1 = 0 ∧ (cradleAngles t).2.2.1 = 0) ∧
    (98/100 < t →
      (cradleAngles t).2.1 < 0 ∧
        (cradleAngles t).2.1 = (cradleAngles t).2.2.1) ∧
    ((t = 48/100 ∨ t = 98/100) → (cradleAngles t).2.1 = 0) := by
  refine ⟨?_, ?_, ?_, ?_, ?_, ?_, ?_, ?_, ?_, ?_⟩
  · rintro rfl
    unfold cradleAngles
    rw [if_pos (by norm_num), if_neg (by norm_num)]
    norm_num
  · intro ht0 ht2
    have hs : 0 < Real.sin (t * 2 * Real.pi) := by
      apply Real.sin_pos_of_pos_of_lt_pi
      · positivity
      · nlinarith [Real.pi_pos]
    have hneg : -maxAngle * Real.sin (t * 2 * Real.pi) < 0 := by
      have := mul_pos maxAngle_pos hs
      nlinarith
    unfold cradleAngles
    rw [if_pos ht2]
    by_cases hw : 48/100 ≤ t ∧ t ≤ 52/100
    · rw [if_pos hw]
      exact hneg
    · rw [if_neg hw]
      exact hneg
  · intro ht2
    unfold cradleAngles
    rw [if_pos ht2]
    by_cases hw : 48/100 ≤ t ∧ t ≤ 52/100
    · rw [if_pos hw]
    · rw [if_neg hw]
  · intro ht2
    unfold cradleAngles
    rw [if_neg (not_lt.mpr ht2)]
    by_cases hw : 98/100 ≤ t
    · rw [if_pos hw]
    · rw [if_neg hw, if_neg (by intro hc; linarith)]
  · intro ht2
    have hs : 0 < Real.sin ((t - 1/2) * 2 * Real.pi) := by
      apply Real.sin_pos_of_pos_of_lt_pi
      · have : (0:ℝ) < t - 1/2 := by linarith
        positivity
      · nlinarith [Real.pi_pos]
    have hpos : 0 < maxAngle * Real.sin ((t - 1/2) * 2 * Real.pi) :=
      mul_pos maxAngle_pos hs
    unfold cradleAngles
    rw [if_neg (by intro hc; linarith)]
    by_cases hw : 98/100 ≤ t
    · rw [if_pos hw]
      exact hpos
    · rw [if_neg hw, if_neg (by intro hc; linarith)]
      exact hpos
  · intro hlt
    unfold cradleAngles
    rw [if_pos (by linarith), if_neg (by intro hc; linarith [hc.1])]
    exact ⟨rfl, rfl⟩
  · intro hgt hlt
    unfold cradleAngles
    rw [if_pos hlt, if_pos ⟨by linarith, by linarith⟩]
    refine ⟨?_, rfl⟩
    apply collisionIntensity_pos
    · apply div_pos (by linarith) (by norm_num)
    · rw [div_le_one (by norm_num)]
      linarith
  · intro hge hlt
    unfold cradleAngles
    rw [if_neg (not_lt.mpr hge), if_neg (not_le.mpr hlt),
      if_neg (by intro hc; linarith)]
    exact ⟨rfl, rfl⟩
  · intro hgt
    unfold cradleAngles
    rw [if_neg (by intro hc; linarith), if_pos (le_of_lt hgt)]
    refine ⟨?_, rfl⟩
    have hpos : 0 < collisionIntensity ((t - 98/100) / (4/100)) := by
      apply collisionIntensity_pos
      · apply div_pos (by linarith) (by norm_num)
      · rw [div_le_one (by norm_num)]
        linarith
    linarith
  · rintro (rfl | rfl)
    · unfold cradleAngles
      rw [if_pos (by norm_num), if_pos (by norm_num)]
      have harg : ((48:ℝ)/100 - 48/100) / (4/100) = 0 := by norm_num
      simp only
      rw [harg, collisionIntensity_zero]
    · unfold cradleAngles
      rw [if_neg (by norm_num), if_pos (by norm_num)]
      have harg : ((98:ℝ)/100 - 98/100) / (4/100) = 0 := by norm_num
      simp only
      rw [harg, collisionIntensity_zero]
      norm_num

/-- Witness for C2 amended at `t = 1/4`: ball 0 is mid-swing with a
strictly negative angle. -/
theorem cradleAngles_phase_spec_witness :
    ((0:ℝ) ≤ 1/4 ∧ (1/4:ℝ) < 1) ∧ (cradleAngles ((1:ℝ)/4)).1 < 0 :=
  ⟨⟨by norm_num, by norm_num⟩,
   (cradleAngles_phase_spec (1/4) (by norm_num) (by norm_num)).2.1
     (by norm_num) (by norm_num)⟩

/-- C5 counterexample: under reduced motion the cradle controller writes
nothing — it merely cancels its animation frame — so a mid-swing pose
(here the pose at normalized time `t = 1/4`) persists unchanged instead
of snapping to the rest state with all angles 0. -/
theorem cradle_reduced_motion_freezes :
    cradleReducedMotion (cradleAngles ((1:ℝ)/4)) = cradleAngles ((1:ℝ)/4) ∧
    cradleAngles ((1:ℝ)/4) ≠ (0, 0, 0, 0) := by
  refine ⟨rfl, ?_⟩
  have hval : (cradleAngles ((1:ℝ)/4)).1 = -maxAngle := by
    unfold cradleAngles
    rw [if_pos (by norm_num), if_neg (by norm_num)]
    have harg : (1:ℝ)/4 * 2 * Real.pi = Real.pi / 2 := by ring
    simp only
    rw [harg, Real.sin_pi_div_two, mul_one]
  intro h
  have h1 := congrArg Prod.fst h
  rw [hval] at h1
  simp only at h1
  have h2 := maxAngle_pos
  linarith [h1]

/-- C5 amended: under reduced motion while visible, the growth-circles
controller snaps to the terminal state 7 (radii of `states[7]`, label
7), but the cradle and discovery-dot controllers write nothing at all:
whatever pose was last rendered persists. -/
theorem reduced_motion_snap_spec :
    (∀ p : GrowthPose,
      leadershipReducedMotion p = ⟨⟨50, 135, 240⟩, 7, p.labelOpacity⟩) ∧
    (∀ p : ℝ × ℝ × ℝ × ℝ, cradleReducedMotion p = p) ∧
    (∀ p : ℝ × ℝ × ℝ, dotReducedMotion p = p) :=
  ⟨fun _ => rfl, fun _ => rfl, fun _ => rfl⟩

end Theorems
